import Mathlib

/-!
Shallow embedding of `src/app.py`: a Flask application exposing
symmetric-difference ("dissociation") queries over a neuroimaging database.

Conventions of the embedding:
* Python strings are Lean `String`s; where character-level Python semantics
  matter (`strip`, `lower`, `replace`, `split`, `int`) we work on `String.data`
  (a `List Char`) with explicit embeddings of the Python primitives,
  restricted to ASCII (the routes of this app only ever receive URL path
  segments, and every claim is about ASCII behaviour).
* The SQL database is an explicit value: a list of rows per table.  `SELECT
  DISTINCT` becomes a `Finset`, the `NOT EXISTS` anti-joins become `Finset`
  difference, `UNION ALL ... ORDER BY 1, 2` becomes `List.mergeSort` under the
  lexicographic order on `(kind, study_id)` rows.
* Fallible Python code (raising / `abort`) is modelled with `Option` /
  `Except` and explicit response constructors.
-/

/-- ASCII whitespace recognised by Python `str.strip()` / `int()`. -/
def isPySpace (c : Char) : Bool :=
  c = ' ' || c = '\t' || c = '\n' || c = '\x0d' || c = '\x0b' || c = '\x0c'

/-- Python `str.strip()` on the character list: drop whitespace at both ends. -/
def pyStripList (s : List Char) : List Char :=
  ((s.dropWhile isPySpace).reverse.dropWhile isPySpace).reverse

/-- Python `str.strip()` (ASCII whitespace). -/
def pyStrip (s : String) : String :=
  ⟨pyStripList s.data⟩

/-- Python `str.lower()` (ASCII: only `A`-`Z` change). -/
def pyLower (s : String) : String :=
  ⟨s.data.map Char.toLower⟩

/-- Python `str.replace(' ', '_')`: every space becomes an underscore. -/
def pyReplaceSpaceUnderscore (s : String) : String :=
  ⟨s.data.map (fun c => if c = ' ' then '_' else c)⟩

/-- Python `str.split(sep)` for a single-character separator: keeps empty
chunks, and the empty string yields one empty chunk. -/
def pySplit (sep : Char) : List Char → List (List Char)
  | [] => [[]]
  | c :: cs =>
    if c = sep then [] :: pySplit sep cs
    else
      match pySplit sep cs with
      | [] => [[c]]
      | t :: ts => (c :: t) :: ts

/-- Value of a nonempty all-digit token, `none` otherwise. -/
def digitsToNat? (ds : List Char) : Option Nat :=
  if ds ≠ [] ∧ ds.all Char.isDigit then
    some (ds.foldl (fun n c => 10 * n + (c.toNat - '0'.toNat)) 0)
  else none

/-- Python `int(s)` on a string: surrounding whitespace is stripped, an
optional explicit sign is accepted, then a nonempty run of ASCII digits.
(The tokens this app feeds to `int` come out of `split("_")`, so they never
contain the digit-grouping underscores Python would additionally accept.) -/
def pyInt? (s : List Char) : Option Int :=
  match pyStripList s with
  | '+' :: ds => (digitsToNat? ds).map Int.ofNat
  | '-' :: ds => (digitsToNat? ds).map (fun n => -(n : Int))
  | ds => (digitsToNat? ds).map Int.ofNat

/-- Python `s.startswith(p)` on character lists. -/
def pyStartsWith : List Char → List Char → Bool
  | _, [] => true
  | [], _ :: _ => false
  | c :: cs, p :: ps => c == p && pyStartsWith cs ps

/-! ### The `annotations_terms` and `coordinates` tables -/

/-- One row of `ns.annotations_terms` (the columns the queries touch). -/
structure AnnRow where
  study_id : Int
  term : String
  weight : ℚ

/-- One row of `ns.coordinates`: `geom` is a 3-D point with rational
coordinates (the store holds real-valued geometry; every claim is closed
under restricting to rationals). -/
structure CoordRow where
  study_id : Int
  geomX : ℚ
  geomY : ℚ
  geomZ : ℚ

/-- The CTE `SELECT DISTINCT study_id FROM ns.annotations_terms WHERE term =
:k AND weight > 0` as a finite set of study ids. -/
def baseTermSet (db : List AnnRow) (key : String) : Finset Int :=
  ((db.filter (fun r => r.term == key && decide (0 < r.weight))).map AnnRow.study_id).toFinset

/-- The CTE `SELECT DISTINCT study_id FROM ns.coordinates WHERE
round(ST_X(geom)) = :x AND ... ` as a finite set of study ids. -/
def baseCoordSet (db : List CoordRow) (x y z : Int) : Finset Int :=
  ((db.filter (fun r =>
      round r.geomX == x && round r.geomY == y && round r.geomZ == z)).map
    CoordRow.study_id).toFinset

/-- The `ORDER BY 1, 2` comparison on `(kind, study_id)` rows. -/
def rowLe (r1 r2 : String × Int) : Bool :=
  decide (r1.1.data < r2.1.data) || (r1.1 == r2.1 && decide (r1.2 ≤ r2.2))

/-- The final `SELECT ... UNION ALL ... ORDER BY 1, 2` of both dissociation
queries: tag `A \ B` rows with `'a_not_b'` and `B \ A` rows with `'b_not_a'`,
then sort by `(kind, study_id)`. -/
def orderedRows (A B : Finset Int) : List (String × Int) :=
  ((((A \ B).sort (· ≤ ·)).map (fun s => ("a_not_b", s))) ++
    (((B \ A).sort (· ≤ ·)).map (fun s => ("b_not_a", s)))).mergeSort rowLe

/-- The two Python list comprehensions that split the single result set by
`kind`. -/
def partitionRows (rows : List (String × Int)) : List Int × List Int :=
  ((rows.filter (fun r => r.1 == "a_not_b")).map Prod.snd,
   (rows.filter (fun r => r.1 == "b_not_a")).map Prod.snd)

/-- Canonical term key: `f"terms_abstract_tfidf__{term.strip().lower().replace(' ', '_')}"`. -/
def termKey (term : String) : String :=
  "terms_abstract_tfidf__" ++ pyReplaceSpaceUnderscore (pyLower (pyStrip term))

/-- JSON body returned by `/dissociate/terms/<term_a>/<term_b>`. -/
structure TermResponse where
  a : String
  b : String
  a_not_b : List Int
  b_not_a : List Int
  count_a_not_b : Nat
  count_b_not_a : Nat
  deriving Repr, DecidableEq

/-- Handler `dissociate_terms`: canonicalise both terms, run the
set-difference query, partition the ordered rows, report lengths as counts. -/
def dissociate_terms (db : List AnnRow) (term_a term_b : String) : TermResponse :=
  let a := termKey term_a
  let b := termKey term_b
  let rows := orderedRows (baseTermSet db a) (baseTermSet db b)
  let p := partitionRows rows
  { a := a, b := b, a_not_b := p.1, b_not_a := p.2,
    count_a_not_b := p.1.length, count_b_not_a := p.2.length }

/-- JSON body returned by `/dissociate/locations/<coord1>/<coord2>`. -/
structure LocResult where
  a : Int × Int × Int
  b : Int × Int × Int
  a_not_b : List Int
  b_not_a : List Int
  count_a_not_b : Nat
  count_b_not_a : Nat
  deriving Repr, DecidableEq

/-- Outcome of a request handler: a normal body, a `flask.abort` client
error, or an exception that escapes the handler (Flask's generic 500). -/
inductive HttpResult (α : Type) where
  | ok (body : α)
  | clientError (status : Nat) (description : String)
  | unhandledError
  deriving Repr, DecidableEq

/-- The list comprehension `[int(p) for p in tokens]`: left-to-right, the
first failing `int` aborts the whole comprehension. -/
def intTokens : List (List Char) → Option (List Int)
  | [] => some []
  | t :: ts =>
    match pyInt? t with
    | none => none
    | some x =>
      match intTokens ts with
      | none => none
      | some xs => some (x :: xs)

/-- The local helper `parse_coords` inside `dissociate_locations`:
`x, y, z = [int(p) for p in s.split("_")]`, any exception (bad int or a
token count other than three) reported as `none`. -/
def parse_coords (s : String) : Option (Int × Int × Int) :=
  match intTokens (pySplit '_' s.data) with
  | some [x, y, z] => some (x, y, z)
  | _ => none

/-- The SQL part of `dissociate_locations`, after both triples parsed. -/
def locQuery (db : List CoordRow) (t1 t2 : Int × Int × Int) : LocResult :=
  let rows := orderedRows (baseCoordSet db t1.1 t1.2.1 t1.2.2)
                          (baseCoordSet db t2.1 t2.2.1 t2.2.2)
  let p := partitionRows rows
  { a := t1, b := t2, a_not_b := p.1, b_not_a := p.2,
    count_a_not_b := p.1.length, count_b_not_a := p.2.length }

/-- Handler `dissociate_locations`: parse both coordinate strings (aborting
with a 400 if either fails, before touching the database), then query. -/
def dissociate_locations (db : List CoordRow) (coord1 coord2 : String) :
    HttpResult LocResult :=
  match parse_coords coord1 with
  | none => .clientError 400 "Coordinates must be 'x_y_z' with integers."
  | some t1 =>
    match parse_coords coord2 with
    | none => .clientError 400 "Coordinates must be 'x_y_z' with integers."
    | some t2 => .ok (locQuery db t1 t2)

/-- Handler `get_studies_by_coordinates` for `/locations/<coords>/studies`:
`x, y, z = map(int, coords.split("_"))` with no try/except, so a parse
failure escapes as an unhandled exception. -/
def get_studies_by_coordinates (coords : String) : HttpResult (List Int) :=
  match intTokens (pySplit '_' coords.data) with
  | some [x, y, z] => .ok [x, y, z]
  | _ => .unhandledError

/-! ### Connection provider (`get_engine`) -/

/-- The scheme rewrite in `get_engine`: `if db_url.startswith("postgres://"):
db_url = "postgresql://" + db_url[len("postgres://"):]`. -/
def normalizeScheme (db_url : String) : String :=
  if pyStartsWith db_url.data "postgres://".data then
    ⟨"postgresql://".data ++ db_url.data.drop "postgres://".length⟩
  else db_url

/-- The configuration part of `get_engine`: read `DB_URL` (`none` when the
variable is absent), raise `RuntimeError` when it is absent or empty
(Python `if not db_url`), otherwise normalize the scheme and hand the URL to
`create_engine`.  `Except.error` models the raised exception. -/
def get_engine_url (env_db_url : Option String) : Except String String :=
  match env_db_url with
  | none => .error "Missing DB_URL (or DATABASE_URL) environment variable."
  | some db_url =>
    if db_url = "" then
      .error "Missing DB_URL (or DATABASE_URL) environment variable."
    else
      .ok (normalizeScheme db_url)

/-! ### Diagnostic endpoint (`test_db`)

The database's behaviour on each query is an oracle: every query the handler
issues is a field of `DbEnv`, an `Except` carrying either the result or the
exception message the driver raises. -/

/-- Oracle for the queries `test_db` issues, in program order. -/
structure DbEnv where
  /-- `eng.begin()` + `SET search_path` (connection checkout / transaction). -/
  begin_q : Except String Unit
  version_q : Except String String
  coordinates_count_q : Except String Int
  metadata_count_q : Except String Int
  annotations_terms_count_q : Except String Int
  coordinates_sample_q : Except String (List String)
  metadata_sample_q : Except String (List String)
  annotations_terms_sample_q : Except String (List String)

/-- The JSON payload `test_db` builds up; `none` models a key absent from
the Python dict. -/
structure TestDbPayload where
  ok : Bool
  version : Option String := none
  coordinates_count : Option Int := none
  metadata_count : Option Int := none
  annotations_terms_count : Option Int := none
  coordinates_sample : Option (List String) := none
  metadata_sample : Option (List String) := none
  annotations_terms_sample : Option (List String) := none
  error : Option String := none
  deriving Repr, DecidableEq

/-- One guarded sample query: `try: ... except Exception: payload[k] = []`. -/
def sampleOrEmpty (q : Except String (List String)) : List String :=
  match q with
  | .ok rows => rows
  | .error _ => []

/-- Handler `test_db`: the unguarded queries run inside one top-level `try`;
the first failure aborts with the partial payload, `ok: false`, the error
string, and status 500.  The three sample queries are individually guarded
and cannot abort.  On success the payload gets `ok: true` and status 200. -/
def test_db (env : DbEnv) : TestDbPayload × Nat :=
  match env.begin_q with
  | .error e => ({ ok := false, error := some e }, 500)
  | .ok _ =>
  match env.version_q with
  | .error e => ({ ok := false, error := some e }, 500)
  | .ok v =>
  match env.coordinates_count_q with
  | .error e => ({ ok := false, version := some v, error := some e }, 500)
  | .ok c1 =>
  match env.metadata_count_q with
  | .error e =>
    ({ ok := false, version := some v, coordinates_count := some c1,
       error := some e }, 500)
  | .ok c2 =>
  match env.annotations_terms_count_q with
  | .error e =>
    ({ ok := false, version := some v, coordinates_count := some c1,
       metadata_count := some c2, error := some e }, 500)
  | .ok c3 =>
    ({ ok := true, version := some v, coordinates_count := some c1,
       metadata_count := some c2, annotations_terms_count := some c3,
       coordinates_sample := some (sampleOrEmpty env.coordinates_sample_q),
       metadata_sample := some (sampleOrEmpty env.metadata_sample_q),
       annotations_terms_sample := some (sampleOrEmpty env.annotations_terms_sample_q),
       error := none }, 200)

/-- The top-level `try` of `test_db` fails: some unguarded operation
(connection/transaction, version, or a count) raises. -/
def topLevelFails (env : DbEnv) : Prop :=
  env.begin_q.isOk = false ∨ env.version_q.isOk = false ∨
    env.coordinates_count_q.isOk = false ∨ env.metadata_count_q.isOk = false ∨
    env.annotations_terms_count_q.isOk = false

instance (env : DbEnv) : Decidable (topLevelFails env) := by
  unfold topLevelFails; infer_instance

/-! ### The ordered result set and its partition -/

/-- The tagged union fed to `ORDER BY 1, 2` is already sorted (every
`'a_not_b'` row precedes every `'b_not_a'` row, and study ids ascend inside
each block), so the final sort is the concatenation of the two blocks. -/
lemma orderedRows_eq (A B : Finset Int) :
    orderedRows A B =
      (((A \ B).sort (· ≤ ·)).map (fun s => ("a_not_b", s))) ++
        (((B \ A).sort (· ≤ ·)).map (fun s => ("b_not_a", s))) := by
  unfold orderedRows
  apply List.mergeSort_of_sorted
  rw [List.pairwise_append]
  refine ⟨?_, ?_, ?_⟩
  · rw [List.pairwise_map]
    refine List.Pairwise.imp ?_ (Finset.sort_sorted (· ≤ ·) (A \ B))
    intro a b hab
    simp only [rowLe, Bool.or_eq_true, Bool.and_eq_true, beq_iff_eq,
      decide_eq_true_eq]
    exact Or.inr ⟨by simp, hab⟩
  · rw [List.pairwise_map]
    refine List.Pairwise.imp ?_ (Finset.sort_sorted (· ≤ ·) (B \ A))
    intro a b hab
    simp only [rowLe, Bool.or_eq_true, Bool.and_eq_true, beq_iff_eq,
      decide_eq_true_eq]
    exact Or.inr ⟨by simp, hab⟩
  · intro x hx y hy
    simp only [List.mem_map] at hx hy
    obtain ⟨s, -, rfl⟩ := hx
    obtain ⟨t, -, rfl⟩ := hy
    simp only [rowLe, Bool.or_eq_true, decide_eq_true_eq]
    exact Or.inl (by decide)

/-- Partitioning the ordered result set by `kind` recovers exactly the two
sorted difference sets. -/
lemma partitionRows_orderedRows (A B : Finset Int) :
    partitionRows (orderedRows A B) =
      ((A \ B).sort (· ≤ ·), (B \ A).sort (· ≤ ·)) := by
  rw [orderedRows_eq]
  unfold partitionRows
  simp [List.filter_map, Function.comp_def, List.map_map]

/-- Closed form of the `dissociate_terms` handler. -/
lemma dissociate_terms_eq (db : List AnnRow) (term_a term_b : String) :
    dissociate_terms db term_a term_b =
      { a := termKey term_a, b := termKey term_b,
        a_not_b := ((baseTermSet db (termKey term_a)) \
          (baseTermSet db (termKey term_b))).sort (· ≤ ·),
        b_not_a := ((baseTermSet db (termKey term_b)) \
          (baseTermSet db (termKey term_a))).sort (· ≤ ·),
        count_a_not_b := (((baseTermSet db (termKey term_a)) \
          (baseTermSet db (termKey term_b))).sort (· ≤ ·)).length,
        count_b_not_a := (((baseTermSet db (termKey term_b)) \
          (baseTermSet db (termKey term_a))).sort (· ≤ ·)).length } := by
  unfold dissociate_terms
  simp [partitionRows_orderedRows]

/-- Closed form of the SQL part of `dissociate_locations`. -/
lemma locQuery_eq (db : List CoordRow) (t1 t2 : Int × Int × Int) :
    locQuery db t1 t2 =
      { a := t1, b := t2,
        a_not_b := ((baseCoordSet db t1.1 t1.2.1 t1.2.2) \
          (baseCoordSet db t2.1 t2.2.1 t2.2.2)).sort (· ≤ ·),
        b_not_a := ((baseCoordSet db t2.1 t2.2.1 t2.2.2) \
          (baseCoordSet db t1.1 t1.2.1 t1.2.2)).sort (· ≤ ·),
        count_a_not_b := (((baseCoordSet db t1.1 t1.2.1 t1.2.2) \
          (baseCoordSet db t2.1 t2.2.1 t2.2.2)).sort (· ≤ ·)).length,
        count_b_not_a := (((baseCoordSet db t2.1 t2.2.1 t2.2.2) \
          (baseCoordSet db t1.1 t1.2.1 t1.2.2)).sort (· ≤ ·)).length } := by
  unfold locQuery
  simp [partitionRows_orderedRows]

/-- The disjointness/partition contract a dissociation result must satisfy
relative to its two base sets `A` and `B`. -/
def dissocSpec (A B : Finset Int) (a_nb b_na : List Int) : Prop :=
  a_nb.Nodup ∧ b_na.Nodup ∧
  (∀ s, s ∈ a_nb → s ∉ b_na) ∧
  (∀ s, s ∈ a_nb → s ∉ A ∩ B) ∧
  (∀ s, s ∈ A ∩ B → s ∉ b_na) ∧
  (∀ s, (s ∈ a_nb ∨ s ∈ A ∩ B ∨ s ∈ b_na) ↔ s ∈ A ∪ B)

lemma dissocSpec_sdiff (A B : Finset Int) :
    dissocSpec A B ((A \ B).sort (· ≤ ·)) ((B \ A).sort (· ≤ ·)) := by
  refine ⟨Finset.sort_nodup _ _, Finset.sort_nodup _ _, ?_, ?_, ?_, ?_⟩ <;>
    intro s <;>
    simp only [Finset.mem_sort, Finset.mem_sdiff, Finset.mem_inter,
      Finset.mem_union] <;>
    tauto

/-! ### Parsing facts -/

/-- A coordinate string splits on `_` into exactly three tokens, each
accepted by Python `int`. -/
def goodCoordString (s : String) : Prop :=
  (pySplit '_' s.data).length = 3 ∧ ∀ t ∈ pySplit '_' s.data, (pyInt? t).isSome

instance (s : String) : Decidable (goodCoordString s) := by
  unfold goodCoordString; infer_instance

lemma intTokens_isSome :
    ∀ l : List (List Char), (intTokens l).isSome ↔ ∀ t ∈ l, (pyInt? t).isSome := by
  intro l
  induction l with
  | nil => simp [intTokens]
  | cons a l ih =>
    cases hfa : pyInt? a with
    | none => simp [intTokens, hfa]
    | some x =>
      cases hts : intTokens l with
      | none => simp_all [intTokens, hfa, hts]
      | some xs => simp_all [intTokens, hfa, hts]

lemma intTokens_length :
    ∀ (l : List (List Char)) (r : List Int),
      intTokens l = some r → r.length = l.length := by
  intro l
  induction l with
  | nil => intro r h; simp only [intTokens, Option.some_inj] at h; subst h; rfl
  | cons a l ih =>
    intro r h
    cases hfa : pyInt? a with
    | none => simp [intTokens, hfa] at h
    | some x =>
      cases hts : intTokens l with
      | none => simp [intTokens, hfa, hts] at h
      | some xs =>
        simp only [intTokens, hfa, hts, Option.some_inj] at h
        subst h
        simp [ih xs hts]

/-- `parse_coords` succeeds exactly on strings that split into three
`int`-parseable tokens. -/
lemma parse_coords_isSome_iff (s : String) :
    (parse_coords s).isSome ↔ goodCoordString s := by
  cases hm : intTokens (pySplit '_' s.data) with
  | none =>
    have h1 : ¬ ∀ a ∈ pySplit '_' s.data, (pyInt? a).isSome := by
      rw [← intTokens_isSome]; simp [hm]
    simp [parse_coords, hm, goodCoordString, h1]
  | some r =>
    have hlen : r.length = (pySplit '_' s.data).length :=
      intTokens_length _ _ hm
    have hall : ∀ a ∈ pySplit '_' s.data, (pyInt? a).isSome := by
      rw [← intTokens_isSome]; simp [hm]
    by_cases h3 : (pySplit '_' s.data).length = 3
    · obtain ⟨x, y, z, rfl⟩ : ∃ x y z, r = [x, y, z] :=
        List.length_eq_three.mp (hlen.trans h3)
      simp only [parse_coords, hm, goodCoordString, h3, Option.isSome_some,
        true_iff, true_and]
      exact hall
    · have h3r : r.length ≠ 3 := fun h => h3 (hlen.symm.trans h)
      have : parse_coords s = none := by
        unfold parse_coords
        rw [hm]
        rcases r with - | ⟨a, - | ⟨b, - | ⟨c, - | ⟨d, t⟩⟩⟩⟩ <;> simp_all
      simp [this, goodCoordString, h3]

lemma parse_coords_eq_none_of_bad {s : String} (h : ¬ goodCoordString s) :
    parse_coords s = none := by
  have := (parse_coords_isSome_iff s).not.mpr h
  simpa [Option.not_isSome_iff_eq_none] using this

/-! ### The claims -/

/-- C1: for every database state and every pair of term keys (or coordinate
triples), the two result lists of the dissociation resolvers are disjoint,
duplicate-free, and `a_not_b`, `A ∩ B`, `b_not_a` partition `A ∪ B`. -/
theorem claim_C1_dissociation_partition
    (adb : List AnnRow) (term_a term_b : String)
    (cdb : List CoordRow) (t1 t2 : Int × Int × Int) :
    dissocSpec (baseTermSet adb (termKey term_a)) (baseTermSet adb (termKey term_b))
      (dissociate_terms adb term_a term_b).a_not_b
      (dissociate_terms adb term_a term_b).b_not_a ∧
    dissocSpec (baseCoordSet cdb t1.1 t1.2.1 t1.2.2) (baseCoordSet cdb t2.1 t2.2.1 t2.2.2)
      (locQuery cdb t1 t2).a_not_b (locQuery cdb t1 t2).b_not_a := by
  constructor
  · rw [dissociate_terms_eq]
    exact dissocSpec_sdiff _ _
  · rw [locQuery_eq]
    exact dissocSpec_sdiff _ _

/-- C4: swapping the two terms swaps the two lists, the two counts, and the
two echoed keys of the term-dissociation response. -/
theorem claim_C4_term_symmetry (db : List AnnRow) (term_a term_b : String) :
    (dissociate_terms db term_b term_a).a_not_b = (dissociate_terms db term_a term_b).b_not_a ∧
    (dissociate_terms db term_b term_a).b_not_a = (dissociate_terms db term_a term_b).a_not_b ∧
    (dissociate_terms db term_b term_a).count_a_not_b = (dissociate_terms db term_a term_b).count_b_not_a ∧
    (dissociate_terms db term_b term_a).count_b_not_a = (dissociate_terms db term_a term_b).count_a_not_b ∧
    (dissociate_terms db term_b term_a).a = (dissociate_terms db term_a term_b).b ∧
    (dissociate_terms db term_b term_a).b = (dissociate_terms db term_a term_b).a := by
  simp [dissociate_terms_eq]

/-- C5: both response lists of each dissociation resolver are strictly
ascending in `study_id`, and the two counts are the lengths of the lists. -/
theorem claim_C5_sorted_and_counts
    (adb : List AnnRow) (term_a term_b : String)
    (cdb : List CoordRow) (t1 t2 : Int × Int × Int) :
    ((dissociate_terms adb term_a term_b).a_not_b.Sorted (· < ·) ∧
     (dissociate_terms adb term_a term_b).b_not_a.Sorted (· < ·) ∧
     (dissociate_terms adb term_a term_b).count_a_not_b =
       (dissociate_terms adb term_a term_b).a_not_b.length ∧
     (dissociate_terms adb term_a term_b).count_b_not_a =
       (dissociate_terms adb term_a term_b).b_not_a.length) ∧
    ((locQuery cdb t1 t2).a_not_b.Sorted (· < ·) ∧
     (locQuery cdb t1 t2).b_not_a.Sorted (· < ·) ∧
     (locQuery cdb t1 t2).count_a_not_b = (locQuery cdb t1 t2).a_not_b.length ∧
     (locQuery cdb t1 t2).count_b_not_a = (locQuery cdb t1 t2).b_not_a.length) := by
  refine ⟨⟨?_, ?_, ?_, ?_⟩, ⟨?_, ?_, ?_, ?_⟩⟩ <;>
    simp only [dissociate_terms_eq, locQuery_eq] <;>
    exact Finset.sort_sorted_lt _

/-- The canonical key as §4.1 words it: the namespace, a double underscore,
then the trimmed term with every character lowercased and every space
replaced by an underscore. -/
def canonicalKeySpec (t : String) : String :=
  "terms_abstract_tfidf" ++ "__" ++
    ⟨(pyStripList t.data).map (fun c => if c.toLower = ' ' then '_' else c.toLower)⟩

/-- C2: the term resolver's canonical key is the fixed namespace, `__`, and
the trimmed, lowercased, space-to-underscore term; in particular the two
keys named by the spec scenario. -/
theorem claim_C2_term_canonical_key :
    (∀ t : String, termKey t = canonicalKeySpec t) ∧
    termKey "Amygdala" = "terms_abstract_tfidf__amygdala" ∧
    termKey "Hippocampus" = "terms_abstract_tfidf__hippocampus" := by
  refine ⟨fun t => ?_, by decide, by decide⟩
  apply String.ext
  simp only [termKey, canonicalKeySpec, pyReplaceSpaceUnderscore, pyLower,
    pyStrip, String.data_append, List.map_map]
  rfl

/-- C3: a malformed coordinate string makes `dissociate_locations` answer
the 400 client error with its descriptive message, and the answer is
independent of the database state — the query is never consulted. -/
theorem claim_C3_malformed_coordinates_400
    (db db' : List CoordRow) (coord1 coord2 : String)
    (h : ¬ goodCoordString coord1 ∨ ¬ goodCoordString coord2) :
    dissociate_locations db coord1 coord2 =
      HttpResult.clientError 400 "Coordinates must be 'x_y_z' with integers." ∧
    dissociate_locations db' coord1 coord2 = dissociate_locations db coord1 coord2 := by
  have key : ∀ d : List CoordRow,
      dissociate_locations d coord1 coord2 =
        HttpResult.clientError 400 "Coordinates must be 'x_y_z' with integers." := by
    intro d
    unfold dissociate_locations
    rcases h with h | h
    · rw [parse_coords_eq_none_of_bad h]
    · cases hp : parse_coords coord1 with
      | none => rfl
      | some t1 => rw [parse_coords_eq_none_of_bad h]
  exact ⟨key db, (key db').trans (key db).symm⟩

theorem claim_C3_witness :
    dissociate_locations [] "1_2" "0_0_0" =
      HttpResult.clientError 400 "Coordinates must be 'x_y_z' with integers." ∧
    dissociate_locations [⟨1, 0, 0, 0⟩] "1_2" "0_0_0" =
      dissociate_locations [] "1_2" "0_0_0" :=
  claim_C3_malformed_coordinates_400 [] [⟨1, 0, 0, 0⟩] "1_2" "0_0_0"
    (Or.inl (by decide))

lemma get_studies_eq_parse (coords : String) :
    get_studies_by_coordinates coords =
      match parse_coords coords with
      | some (x, y, z) => HttpResult.ok [x, y, z]
      | none => HttpResult.unhandledError := by
  unfold get_studies_by_coordinates parse_coords
  cases hm : intTokens (pySplit '_' coords.data) with
  | none => rfl
  | some r => rcases r with - | ⟨a, - | ⟨b, - | ⟨c, - | ⟨d, t⟩⟩⟩⟩ <;> rfl

/-- C6: `/locations/<coords>/studies` returns the JSON array `[x, y, z]`
when the path segment parses as three integers, and otherwise the parse
error escapes unhandled — this route never produces a graceful 400. -/
theorem claim_C6_locations_route_unhandled (coords : String) :
    (∀ x y z : Int, parse_coords coords = some (x, y, z) →
      get_studies_by_coordinates coords = HttpResult.ok [x, y, z]) ∧
    (parse_coords coords = none →
      get_studies_by_coordinates coords = HttpResult.unhandledError) ∧
    ∀ st msg, get_studies_by_coordinates coords ≠ HttpResult.clientError st msg := by
  refine ⟨fun x y z hp => ?_, fun hn => ?_, fun st msg => ?_⟩
  · rw [get_studies_eq_parse, hp]
  · rw [get_studies_eq_parse, hn]
  · rw [get_studies_eq_parse]
    cases hp : parse_coords coords with
    | none => simp
    | some t =>
      obtain ⟨x, y, z⟩ := t
      simp

theorem claim_C6_witness :
    get_studies_by_coordinates "1_2_3" = HttpResult.ok [1, 2, 3] ∧
    get_studies_by_coordinates "1_2" = HttpResult.unhandledError :=
  ⟨(claim_C6_locations_route_unhandled "1_2_3").1 1 2 3 (by decide),
   (claim_C6_locations_route_unhandled "1_2").2.1 (by decide)⟩

/-- C10: the coordinate parser succeeds exactly when the string splits on
`_` into three tokens Python's `int` accepts; since `int` tolerates
surrounding whitespace and an explicit sign, `"+1_ 2_3"` is accepted as
`(1, 2, 3)` and reaches the query instead of being rejected. -/
theorem claim_C10_parse_coords_python_int (s : String) :
    ((parse_coords s).isSome ↔ goodCoordString s) ∧
    parse_coords "+1_ 2_3" = some (1, 2, 3) ∧
    ∀ db : List CoordRow,
      dissociate_locations db "+1_ 2_3" "+1_ 2_3" =
        HttpResult.ok (locQuery db (1, 2, 3) (1, 2, 3)) := by
  refine ⟨parse_coords_isSome_iff s, by decide, fun db => ?_⟩
  unfold dissociate_locations
  rw [show parse_coords "+1_ 2_3" = some (1, 2, 3) from by decide]

lemma pyStartsWith_append (p t : List Char) : pyStartsWith (p ++ t) p = true := by
  induction p with
  | nil => cases t <;> rfl
  | cons c cs ih => simp [pyStartsWith, ih]

lemma pyStartsWith_append_both (p s t : List Char) :
    pyStartsWith (p ++ s) (p ++ t) = pyStartsWith s t := by
  induction p with
  | nil => rfl
  | cons c cs ih => simp [pyStartsWith, ih]

/-- C7: a connection string with the legacy `postgres://` scheme is
rewritten to the canonical `postgresql://` scheme before reaching
`create_engine`, and a connection string already in the canonical scheme is
passed through unchanged. -/
theorem claim_C7_scheme_normalization (rest : List Char) :
    normalizeScheme ⟨"postgres://".data ++ rest⟩ = ⟨"postgresql://".data ++ rest⟩ ∧
    normalizeScheme ⟨"postgresql://".data ++ rest⟩ = ⟨"postgresql://".data ++ rest⟩ ∧
    get_engine_url (some ⟨"postgres://".data ++ rest⟩) =
      Except.ok ⟨"postgresql://".data ++ rest⟩ ∧
    get_engine_url (some ⟨"postgresql://".data ++ rest⟩) =
      Except.ok ⟨"postgresql://".data ++ rest⟩ := by
  have h1 : normalizeScheme ⟨"postgres://".data ++ rest⟩ =
      ⟨"postgresql://".data ++ rest⟩ := by
    unfold normalizeScheme
    rw [if_pos (pyStartsWith_append _ _)]
    have hdrop : ("postgres://".data ++ rest).drop "postgres://".length = rest := by
      rw [show "postgres://".length = ("postgres://".data).length from rfl]
      exact List.drop_left _ _
    rw [hdrop]
  have hcond : pyStartsWith ("postgresql://".data ++ rest) "postgres://".data = false := by
    have e1 : "postgresql://".data =
        "postgres".data ++ ('q' :: 'l' :: ':' :: '/' :: '/' :: ([] : List Char)) := by
      decide
    have e2 : "postgres://".data =
        "postgres".data ++ (':' :: '/' :: '/' :: ([] : List Char)) := by
      decide
    have hqc : ('q' == ':') = false := by decide
    rw [e1, e2, List.append_assoc, pyStartsWith_append_both]
    simp [pyStartsWith, hqc]
  have h2 : normalizeScheme ⟨"postgresql://".data ++ rest⟩ =
      ⟨"postgresql://".data ++ rest⟩ := by
    unfold normalizeScheme
    rw [show pyStartsWith (⟨"postgresql://".data ++ rest⟩ : String).data
          "postgres://".data = false from hcond]
    simp
  have hne1 : (⟨"postgres://".data ++ rest⟩ : String) ≠ "" := by
    simp [String.ext_iff]
  have hne2 : (⟨"postgresql://".data ++ rest⟩ : String) ≠ "" := by
    simp [String.ext_iff]
  refine ⟨h1, h2, ?_, ?_⟩
  · simp only [get_engine_url]
    rw [if_neg hne1, h1]
  · simp only [get_engine_url]
    rw [if_neg hne2, h2]

/-- C8: `get_engine` raises its configuration error exactly when `DB_URL`
is absent or empty; a present nonempty value never raises for that reason
and yields the (normalized) URL for engine creation. -/
theorem claim_C8_missing_db_url_fatal :
    (∀ v : Option String, (v = none ∨ v = some "") →
      get_engine_url v =
        Except.error "Missing DB_URL (or DATABASE_URL) environment variable.") ∧
    ∀ s : String, s ≠ "" → get_engine_url (some s) = Except.ok (normalizeScheme s) := by
  constructor
  · rintro v (rfl | rfl)
    · rfl
    · simp [get_engine_url]
  · intro s hs
    simp [get_engine_url, hs]

theorem claim_C8_witness :
    get_engine_url none =
      Except.error "Missing DB_URL (or DATABASE_URL) environment variable." ∧
    get_engine_url (some "postgresql://db.example/ns") =
      Except.ok (normalizeScheme "postgresql://db.example/ns") :=
  ⟨claim_C8_missing_db_url_fatal.1 none (Or.inl rfl),
   claim_C8_missing_db_url_fatal.2 "postgresql://db.example/ns" (by decide)⟩

/-- C9: in `test_db` every per-table sample query is individually guarded —
when the top level succeeds the response is 200 with `ok: true` and a
failing sample only degrades to an empty list — while `ok` is `false` with
an error message attached exactly when the top-level connection/transaction
block (connection, version, or a count) fails, in which case the status is
500. -/
lemma test_db_fail (env : DbEnv) (h : topLevelFails env) :
    (test_db env).2 = 500 ∧ (test_db env).1.ok = false ∧
      ∃ e, (test_db env).1.error = some e := by
  obtain ⟨b, v, c1, c2, c3, s1, s2, s3⟩ := env
  cases b <;> cases v <;> cases c1 <;> cases c2 <;> cases c3 <;>
    simp_all [test_db, topLevelFails, Except.isOk, Except.toBool]

lemma test_db_success (env : DbEnv) (h : ¬ topLevelFails env) :
    (test_db env).2 = 200 ∧ (test_db env).1.ok = true ∧
    (test_db env).1.error = none ∧
    (test_db env).1.coordinates_sample = some (sampleOrEmpty env.coordinates_sample_q) ∧
    (test_db env).1.metadata_sample = some (sampleOrEmpty env.metadata_sample_q) ∧
    (test_db env).1.annotations_terms_sample =
      some (sampleOrEmpty env.annotations_terms_sample_q) := by
  obtain ⟨b, v, c1, c2, c3, s1, s2, s3⟩ := env
  cases b <;> cases v <;> cases c1 <;> cases c2 <;> cases c3 <;>
    simp_all [test_db, topLevelFails, Except.isOk, Except.toBool]

theorem claim_C9_test_db_guarding (env : DbEnv) :
    (¬ topLevelFails env →
      (test_db env).2 = 200 ∧ (test_db env).1.ok = true ∧
      (test_db env).1.error = none ∧
      (∀ e, env.coordinates_sample_q = .error e →
        (test_db env).1.coordinates_sample = some []) ∧
      (∀ e, env.metadata_sample_q = .error e →
        (test_db env).1.metadata_sample = some []) ∧
      (∀ e, env.annotations_terms_sample_q = .error e →
        (test_db env).1.annotations_terms_sample = some [])) ∧
    (topLevelFails env →
      (test_db env).2 = 500 ∧ (test_db env).1.ok = false ∧
      ∃ e, (test_db env).1.error = some e) ∧
    (((test_db env).1.ok = false ∧ (test_db env).1.error ≠ none) ↔
      topLevelFails env) := by
  refine ⟨fun hok => ?_, fun hfail => test_db_fail env hfail, ?_⟩
  · obtain ⟨h200, htrue, herr, hcs, hms, has⟩ := test_db_success env hok
    refine ⟨h200, htrue, herr, fun e he => ?_, fun e he => ?_, fun e he => ?_⟩
    · rw [hcs, he]; rfl
    · rw [hms, he]; rfl
    · rw [has, he]; rfl
  · constructor
    · rintro ⟨hfalse, -⟩
      by_contra hok
      have htrue := (test_db_success env hok).2.1
      rw [htrue] at hfalse
      exact Bool.true_eq_false.mp hfalse
    · intro hf
      obtain ⟨-, hfalse, e, he⟩ := test_db_fail env hf
      exact ⟨hfalse, by simp [he]⟩

theorem claim_C9_witness :
    (test_db ⟨Except.ok (), Except.ok "PostgreSQL 16.2", Except.ok 10,
      Except.ok 20, Except.ok 30, Except.error "missing column",
      Except.ok ["row"], Except.error "boom"⟩).2 = 200 ∧
    (test_db ⟨Except.ok (), Except.ok "PostgreSQL 16.2", Except.ok 10,
      Except.ok 20, Except.ok 30, Except.error "missing column",
      Except.ok ["row"], Except.error "boom"⟩).1.coordinates_sample = some [] ∧
    (test_db ⟨Except.error "connection refused", Except.ok "v", Except.ok 0,
      Except.ok 0, Except.ok 0, Except.ok [], Except.ok [],
      Except.ok []⟩).2 = 500 := by
  refine ⟨?_, ?_, ?_⟩
  · exact ((claim_C9_test_db_guarding _).1 (by decide)).1
  · exact ((claim_C9_test_db_guarding _).1 (by decide)).2.2.2.1 "missing column" rfl
  · exact ((claim_C9_test_db_guarding _).2.1 (by decide)).1

